import Mathlib

/-!
# hydro-shop: request gates and user handlers

A shallow embedding of the fiber handlers of
`modules/middlewares/middlewaresHandlers/middlewaresHandlers.go`,
`modules/users/usersHandlers/usersHandler.go` and of the insertion pattern of
`modules/users/usersPatterns/insertUser.go`.

A handler is a function from the request context (and, for the user handlers,
the state of the world behind the use case) to what the handler did: it either
called `c.Next()` or answered with a response.  Go `int` is `Int` with an
explicit wrap to 64 bits where the code adds.
-/

namespace HydroShop

/-! ## Request context and responses -/

/-- A value kept in the request context by `c.Locals(key, value)`: a Go
`interface{}`.  `nil` is what `c.Locals(key)` gives for a key never set. -/
inductive LocalVal where
  | nil : LocalVal
  | str (s : String) : LocalVal
  | int (i : Int) : LocalVal
  deriving DecidableEq, Repr

/-- The part of `*fiber.Ctx` the handlers read and write. -/
structure Ctx where
  /-- Request headers, `c.Get(key)`; an absent header reads as the empty string. -/
  header : String → String
  /-- Path parameters, `c.Params(key)`. -/
  params : String → String
  /-- Request body, as handed to `c.BodyParser`. -/
  body : String
  /-- Request-scoped values, `c.Locals(key)`. -/
  locals : String → LocalVal

/-- The call `c.Locals(key, value)`: store a value in the request context. -/
def Ctx.setLocal (c : Ctx) (key : String) (v : LocalVal) : Ctx :=
  { c with locals := fun k => if k = key then v else c.locals k }

/-- Status codes used by the handlers (`fiber.ErrBadRequest.Code`, ...). -/
def ErrBadRequest : Nat := 400
def ErrUnauthorized : Nat := 401
def ErrNotFound : Nat := 404
def ErrInternalServerError : Nat := 500
def StatusOK : Nat := 200
def StatusCreated : Nat := 201

/-- Modelled from the spec: the package `modules/entities` (`NewResponse`,
`Error`, `Success`, `Res`) is not among the sources.  A response is modelled as
the record of the arguments the handler passes to
`entities.NewResponse(c).Error(code, traceId, msg).Res()` or to
`entities.NewResponse(c).Success(code, data).Res()`. -/
inductive Response (δ : Type) where
  | error (code : Nat) (traceId : String) (msg : String) : Response δ
  | success (code : Nat) (data : δ) : Response δ
  deriving DecidableEq, Repr

/-- What a middleware did with a request: it called `c.Next()` or it answered,
in either case leaving the request context as it last set it. -/
inductive Gate where
  | next (c : Ctx) : Gate
  | respond (c : Ctx) (r : Response Unit) : Gate

/-- The handler called `c.Next()`. -/
def Gate.isNext : Gate → Bool
  | .next _ => true
  | .respond _ _ => false

/-- The response the handler answered with, if it answered. -/
def Gate.response : Gate → Option (Response Unit)
  | .next _ => none
  | .respond _ r => some r

/-- The request context after the handler ran. -/
def Gate.ctx : Gate → Ctx
  | .next c => c
  | .respond c _ => c

/-! ## middlewaresHandlers -/

def routerCheckErr : String := "middleware-001"
def jwtAuthErr : String := "middleware-002"
def paramsCheckErr : String := "middleware-003"
def authorizeErr : String := "middleware-004"
def apiKeyAuthorizeErr : String := "middleware-005"

/-- A row of the roles table, as returned by `FindRole`. -/
structure Role where
  id : Int
  title : String
  deriving DecidableEq, Repr

/-- The verified claims of a token (`result.Claims`): subject id and role id. -/
structure Claims where
  Id : String
  RoleId : Int
  deriving DecidableEq, Repr

/-- The use case behind the middlewares, as the handlers call it:
`FindAccessToken(userId, accessToken) bool` and `FindRole() ([]*Role, error)`.
Both only read the store, so they are given as their results during the
request. -/
structure MiddlewaresUsecase where
  FindAccessToken : String → String → Bool
  FindRole : Except String (List Role)

/-- Go `int` arithmetic: the value of a 64-bit two's complement word. -/
def wrapInt (x : Int) : Int := (x + 2 ^ 63) % 2 ^ 64 - 2 ^ 63

/-- Modelled from the spec: `utils.BinaryConverter` (package `pkg/utils`) is not
among the sources.  The spec describes it as decomposing a number "into its
binary digits, most-significant first, to width totalRoleCount": the result has
`bits` digits, digit `i` being the binary digit of weight `2 ^ (bits - 1 - i)`.
A number that needs more than `bits` digits keeps its low `bits` digits, and a
number below zero has no digit set. -/
def BinaryConverter (number : Int) (bits : Nat) : List Nat :=
  (List.range bits).map (fun i => (number.toNat / 2 ^ (bits - 1 - i)) % 2)

/-- The loop `for _, v := range expectRoleId { sum += v }` of `Authorize`. -/
def sumRoleIds (expectRoleId : List Int) : Int :=
  expectRoleId.foldl (fun sum v => wrapInt (sum + v)) 0

/-- The loop `for i := range userValueBinary` of `Authorize`: is there an index
where `userValueBinary[i] & expactedValueBinary[i] == 1`.  Both slices come from
`BinaryConverter` with the same width, so the indices of one are those of the
other. -/
def bitsOverlap (userValueBinary expactedValueBinary : List Nat) : Bool :=
  (userValueBinary.zip expactedValueBinary).any (fun p => p.1 &&& p.2 == 1)

/-- The handler built by `middlewaresHandler.Authorize(expectRoleId ...int)`. -/
def Authorize (u : MiddlewaresUsecase) (expectRoleId : List Int) (c : Ctx) : Gate :=
  match c.locals "userRoleId" with
  | .int userRoleId =>
    match u.FindRole with
    | .error err => .respond c (.error ErrInternalServerError authorizeErr err)
    | .ok roles =>
      let sum := sumRoleIds expectRoleId
      let expactedValueBinary := BinaryConverter sum roles.length
      let userValueBinary := BinaryConverter userRoleId roles.length
      if bitsOverlap userValueBinary expactedValueBinary then .next c
      else .respond c (.error ErrUnauthorized authorizeErr "no permission to access")
  | _ => .respond c (.error ErrUnauthorized authorizeErr "user_id is not int")

/-- The handler built by `middlewaresHandler.ParamsCheck()`: the path parameter (a string) is
compared with the `interface{}` stored under "userId"; they are equal only when
the stored value is a string with the same contents. -/
def ParamsCheck (c : Ctx) : Gate :=
  let userId := c.locals "userId"
  if LocalVal.str (c.params "user_id") ≠ userId then
    .respond c (.error ErrUnauthorized paramsCheckErr "params mismatch")
  else .next c

/-- Go's `strings.TrimPrefix(s, prefix)`. -/
def trimPrefix (s pre : String) : String :=
  if pre.data <+: s.data then ⟨s.data.drop pre.data.length⟩ else s

/-- The handler built by `middlewaresHandler.JwtAuth()`.  `ParseToken` stands for
`auth.ParseToken(h.cfg.Jwt(), ·)` (package `pkg/auth`, not among the sources):
it gives the verified claims or the error text. -/
def JwtAuth (ParseToken : String → Except String Claims) (u : MiddlewaresUsecase)
    (c : Ctx) : Gate :=
  let token := trimPrefix (c.header "Authorization") "Bearer "
  match ParseToken token with
  | .error err => .respond c (.error ErrUnauthorized jwtAuthErr err)
  | .ok claims =>
    if !u.FindAccessToken claims.Id token then
      .respond c (.error ErrUnauthorized jwtAuthErr "no permission to access")
    else
      .next ((c.setLocal "userId" (.str claims.Id)).setLocal "userRoleId" (.int claims.RoleId))

/-! ## usersPatterns: insertUser.go -/

/-- Modelled from the spec: the package `modules/users` is not among the
sources.  `users.UserRegisterReq`, the body of a registration request: the
three fields `insertUser.go` reads from it. -/
structure UserRegisterReq where
  Email : String
  Password : String
  Username : String
  deriving DecidableEq, Repr

/-- Modelled from the spec: the public view of a user (id, email, username,
role-id), `users.User`. -/
structure User where
  id : String
  email : String
  username : String
  role_id : Int
  deriving DecidableEq, Repr

/-- Modelled from the spec: `users.UserPassport`, a user's public view plus a
token pair; `Result` builds it with `'token', NULL`. -/
structure UserPassport where
  user : User
  token : Option (String × String)
  deriving DecidableEq, Repr

/-- The database behind `*sqlx.DB`, as `insertUser.go` uses it: the statement
`INSERT INTO "users" ("email", "password", "username", "role_id") VALUES (...)
RETURNING "id"` and the lookup of `Result` by id.  A failing statement gives the
driver's error text. -/
structure UserDb (σ : Type) where
  insertUser : σ → (email password username : String) → (role_id : Int) → Except String (String × σ)
  selectUser : σ → (id : String) → Except String User

/-- The `userReq` struct, without its database handle (the state of the
database is passed to the methods). -/
structure userReq where
  id : String
  req : UserRegisterReq
  deriving DecidableEq, Repr

/-- The interface `IInsertUser`: the `customer` or the `admin` wrapper of a `userReq`.  Both
embed `*userReq`, so both have the three methods. -/
inductive IInsertUser where
  | customer (u : userReq) : IInsertUser
  | admin (u : userReq) : IInsertUser
  deriving DecidableEq, Repr

/-- The embedded `*userReq` of either wrapper. -/
def IInsertUser.userReq : IInsertUser → userReq
  | .customer u => u
  | .admin u => u

def newCustomer (req : UserRegisterReq) : IInsertUser :=
  .customer { id := "", req := req }

def newAdmin (req : UserRegisterReq) : IInsertUser :=
  .admin { id := "", req := req }

/-- The constructor `InsertUser(db, req, isAdmin)`. -/
def InsertUser (req : UserRegisterReq) (isAdmin : Bool) : IInsertUser :=
  if isAdmin then newAdmin req else newCustomer req

/-- The method `(u *userReq) Customer()`: the insert with `role_id` 1; the returned id is
scanned into `u.id`. -/
def userReq.Customer {σ : Type} (D : UserDb σ) (u : userReq) (db : σ) :
    Except String (userReq × σ) :=
  match D.insertUser db u.req.Email u.req.Password u.req.Username 1 with
  | .error err => .error ("inser user failed: " ++ err)
  | .ok (id, db') => .ok ({ u with id := id }, db')

/-- The method `(u *userReq) Admin()`: the insert with `role_id` 2. -/
def userReq.Admin {σ : Type} (D : UserDb σ) (u : userReq) (db : σ) :
    Except String (userReq × σ) :=
  match D.insertUser db u.req.Email u.req.Password u.req.Username 2 with
  | .error err => .error ("inser user failed: " ++ err)
  | .ok (id, db') => .ok ({ u with id := id }, db')

/-- The method `(u *userReq) Result()`: the inserted user read back by id, with a null
token.  (The JSON round trip of the row is the identity on the four fields.) -/
def userReq.Result {σ : Type} (D : UserDb σ) (u : userReq) (db : σ) :
    Except String UserPassport :=
  match D.selectUser db u.id with
  | .error err => .error ("get user failed: " ++ err)
  | .ok user => .ok { user := user, token := none }

/-! ## usersHandlers -/

def signUpCustomerErr : String := "users-001"
def signInErr : String := "users-002"
def refreshPassportErr : String := "users-003"
def signOutErr : String := "users-004"
def signUpAdminErr : String := "users-005"
def generateAdminTokenErr : String := "users-006"
def getUserProfileErr : String := "users-007"

/-- The use case behind the user handlers (`usersUsecases.IUsersusecase`, not
among the sources), as the handlers call it.  Each method runs against the
state `σ` of the world behind it and gives its result and the state it leaves.
A Go `error` result is `none` for `nil`. -/
structure UsersUsecase (σ : Type) where
  InsertCustomer : UserRegisterReq → σ → Except String UserPassport × σ
  InsertAdmin : UserRegisterReq → σ → Except String UserPassport × σ
  DeleteOauth : String → σ → Option String × σ
  GetUserProfile : String → σ → Except String User × σ

/-- What the user handlers take from outside the handler file: the body
parsers (`c.BodyParser(req)` into the request struct), `req.IsEmail()` and the
construction and signing of the admin token
(`auth.NewAuth(auth.Admin, h.cfg.Jwt(), nil)` then `SignToken()`). -/
structure UsersEnv where
  parseRegister : String → Except String UserRegisterReq
  parseRemove : String → Except String String
  IsEmail : UserRegisterReq → Bool
  NewAdminAuth : Except String String

/-- The handler `usesHandler.SignUpCustomer`. -/
def SignUpCustomer {σ : Type} (E : UsersEnv) (h : UsersUsecase σ) (c : Ctx) (s : σ) :
    Response UserPassport × σ :=
  match E.parseRegister c.body with
  | .error err => (.error ErrBadRequest signUpCustomerErr err, s)
  | .ok req =>
    if !E.IsEmail req then
      (.error ErrBadRequest signUpCustomerErr "email pattern is invalid", s)
    else
      match h.InsertCustomer req s with
      | (.error err, s') => (.error ErrInternalServerError signUpCustomerErr err, s')
      | (.ok result, s') => (.success StatusCreated result, s')

/-- The handler `usesHandler.SignUpAdmin`.  The insertion it calls is
`h.usersUsecase.InsertCustomer(req)`, as in the source. -/
def SignUpAdmin {σ : Type} (E : UsersEnv) (h : UsersUsecase σ) (c : Ctx) (s : σ) :
    Response UserPassport × σ :=
  match E.parseRegister c.body with
  | .error err => (.error ErrBadRequest signUpAdminErr err, s)
  | .ok req =>
    if !E.IsEmail req then
      (.error ErrBadRequest signUpAdminErr "email pattern is invalid", s)
    else
      match h.InsertCustomer req s with
      | (.error err, s') => (.error ErrInternalServerError signUpAdminErr err, s')
      | (.ok result, s') => (.success StatusCreated result, s')

/-- The handler `usesHandler.GenerateAdminToken`. -/
def GenerateAdminToken (E : UsersEnv) (_c : Ctx) : Response String :=
  match E.NewAdminAuth with
  | .error err => .error ErrInternalServerError generateAdminTokenErr err
  | .ok token => .success StatusOK token

/-- The handler `usesHandler.SignOut`; the parsed body is its `OauthId`. -/
def SignOut {σ : Type} (E : UsersEnv) (h : UsersUsecase σ) (c : Ctx) (s : σ) :
    Response Unit × σ :=
  match E.parseRemove c.body with
  | .error err => (.error ErrBadRequest signOutErr err, s)
  | .ok oauthId =>
    match h.DeleteOauth oauthId s with
    | (some err, s') => (.error ErrBadRequest signOutErr err, s')
    | (none, s') => (.success StatusOK (), s')

/-- Go's `strings.Trim(s, " ")`: leading and trailing spaces removed. -/
def trimSpaces (s : String) : String :=
  ⟨((s.data.dropWhile (· = ' ')).reverse.dropWhile (· = ' ')).reverse⟩

/-- The handler `usesHandler.GetUserProfile`. -/
def GetUserProfile {σ : Type} (h : UsersUsecase σ) (c : Ctx) (s : σ) :
    Response User × σ :=
  let userId := trimSpaces (c.params "user_id")
  match h.GetUserProfile userId s with
  | (.error err, s') =>
    if err = "get user failed: sql: no rows in result set" then
      (.error ErrBadRequest getUserProfileErr err, s')
    else
      (.error ErrInternalServerError getUserProfileErr err, s')
  | (.ok result, s') => (.success StatusOK result, s')

/-! ## Concrete requests and collaborators used to evaluate the handlers -/

/-- A row of the users table. -/
structure UserRow where
  id : String
  email : String
  password : String
  username : String
  role_id : Int
  deriving DecidableEq, Repr

/-- A row of the oauth table: a session record. -/
structure OauthRow where
  id : String
  user_id : String
  access_token : String
  refresh_token : String
  deriving DecidableEq, Repr

/-- The tables behind the use cases. -/
structure World where
  users : List UserRow
  oauth : List OauthRow
  roles : List Role
  deriving DecidableEq, Repr

/-- Modelled from the spec: the users table behind `*sqlx.DB` (schema and
driver are not among the sources).  An insert fails on a duplicate email or
username ("unique email/username constraint"), otherwise it appends the row
under a fresh id; a lookup of an id that is not there fails with the driver's
"sql: no rows in result set". -/
def worldDb : UserDb World where
  insertUser w email password username role_id :=
    if w.users.any (fun r => r.email = email || r.username = username) then
      .error "duplicate key value violates unique constraint"
    else
      let id := String.mk (List.replicate (w.users.length + 1) 'u')
      .ok (id, { w with users := w.users ++ [{ id := id, email := email, password := password,
                                               username := username, role_id := role_id }] })
  selectUser w id :=
    match w.users.find? (fun r => r.id = id) with
    | none => .error "sql: no rows in result set"
    | some r => .ok { id := r.id, email := r.email, username := r.username, role_id := r.role_id }

/-- Modelled from the spec: the repository step between the use case and
`insertUser.go` (package `usersRepositories`, not among the sources): build the
inserter with `InsertUser(db, req, isAdmin)`, run the insertion of its kind
("customer vs admin registration differs only in the role-id written") and
return "the newly created user wrapped in a Passport with a null token
field". -/
def repositoryInsertUser {σ : Type} (D : UserDb σ) (req : UserRegisterReq) (isAdmin : Bool)
    (db : σ) : Except String UserPassport × σ :=
  let inserted :=
    match InsertUser req isAdmin with
    | .customer u => u.Customer D db
    | .admin u => u.Admin D db
  match inserted with
  | .error err => (.error err, db)
  | .ok (u, db') => (u.Result D db', db')

/-- Modelled from the spec: the use case behind the user handlers (package
`usersUsecases`, not among the sources) over the tables of `World`.
Registration stores the hash of the password (`hash`, "a secure one-way hash")
and inserts with the role of its kind; `DeleteOauth` is the store's
`DeleteById(id) -> ok|NotFound`; `GetUserProfile` is `FindById(id)`. -/
def usersUsecaseOf (hash : String → String) : UsersUsecase World where
  InsertCustomer req w := repositoryInsertUser worldDb { req with Password := hash req.Password } false w
  InsertAdmin req w := repositoryInsertUser worldDb { req with Password := hash req.Password } true w
  DeleteOauth oauthId w :=
    if w.oauth.any (fun r => r.id = oauthId) then
      (none, { w with oauth := w.oauth.filter (fun r => r.id ≠ oauthId) })
    else (some "oauth not found", w)
  GetUserProfile userId w :=
    match worldDb.selectUser w userId with
    | .error err => (.error ("get user failed: " ++ err), w)
    | .ok user => (.ok user, w)

/-- Modelled from the spec: the use case behind the middlewares (package
`middlewaresUsecases` declares no method among the sources) over the tables of
`World`: `FindAccessToken` is the check that the store "contains a record whose
token matches AND whose subject equals the verified claim's subject";
`FindRole` reads the roles table. -/
def middlewaresUsecaseOf (w : World) : MiddlewaresUsecase where
  FindAccessToken userId accessToken :=
    w.oauth.any (fun r => r.user_id = userId && r.access_token = accessToken)
  FindRole := .ok w.roles

/-- A use case every call of which fails with the given error text. -/
def failingUsecase (err : String) : UsersUsecase Unit where
  InsertCustomer _ s := (.error err, s)
  InsertAdmin _ s := (.error err, s)
  DeleteOauth _ s := (some err, s)
  GetUserProfile _ s := (.error err, s)

/-- A use case that only counts how often an insertion is called. -/
def countingUsecase : UsersUsecase Nat where
  InsertCustomer _ n := (.error "insert", n + 1)
  InsertAdmin _ n := (.error "insert", n + 1)
  DeleteOauth _ n := (none, n)
  GetUserProfile _ n := (.error "get", n)

/-- The registration request of the spec's scenario. -/
def scenarioReq : UserRegisterReq :=
  { Email := "a@x.com", Password := "p", Username := "a" }

/-- An environment whose body parser yields the given registration request
(or session id) for every body, with a mail check that asks for an `@`. -/
def envOf (req : UserRegisterReq) (oauthId : String) : UsersEnv where
  parseRegister _ := .ok req
  parseRemove _ := .ok oauthId
  IsEmail r := r.Email.data.contains '@'
  NewAdminAuth := .ok "admin-token"

/-- An environment in which building the admin token fails with the given
text. -/
def envAdminFails (err : String) : UsersEnv where
  parseRegister _ := .error "unparsed"
  parseRemove _ := .error "unparsed"
  IsEmail _ := false
  NewAdminAuth := .error err

/-- The empty tables. -/
def emptyWorld : World := { users := [], oauth := [], roles := [] }

/-- A world with one session "s1" of user "u1" holding access token "good". -/
def sessionWorld : World :=
  { users := [], roles := [],
    oauth := [{ id := "s1", user_id := "u1", access_token := "good", refresh_token := "r" }] }

/-- A request context without headers, parameters, body or stored values. -/
def emptyCtx : Ctx :=
  { header := fun _ => "", params := fun _ => "", body := "", locals := fun _ => .nil }

/-- A token check accepting the one token "good", of subject "u1" with role 1. -/
def parseGood (token : String) : Except String Claims :=
  if token = "good" then .ok { Id := "u1", RoleId := 1 } else .error "token is invalid"

/-- A context whose only request-scoped value is the caller's role id. -/
def ctxWithRole (role : Int) : Ctx :=
  { header := fun _ => "", params := fun _ => "", body := "",
    locals := fun k => if k = "userRoleId" then .int role else .nil }

/-- A roles table of `n` rows. -/
def rolesOfCount (n : Nat) : List Role :=
  (List.range n).map (fun i => { id := (i : Int) + 1, title := "" })

/-- A use case whose roles table has `n` rows. -/
def usecaseWithRoles (n : Nat) : MiddlewaresUsecase :=
  { FindAccessToken := fun _ _ => true, FindRole := .ok (rolesOfCount n) }

/-! ## Lemmas -/

theorem wrapInt_zero : wrapInt 0 = 0 := by decide

theorem wrapInt_add_left (a b : Int) : wrapInt (wrapInt a + b) = wrapInt (a + b) := by
  unfold wrapInt
  omega

theorem wrapInt_of_bounds (x : Int) (h0 : 0 ≤ x) (h1 : x < 2 ^ 63) : wrapInt x = x := by
  unfold wrapInt
  omega

theorem foldl_wrapInt (l : List Int) (a : Int) :
    l.foldl (fun sum v => wrapInt (sum + v)) (wrapInt a) = wrapInt (a + l.sum) := by
  induction l generalizing a with
  | nil => simp
  | cons v l ih =>
    simp only [List.foldl_cons, List.sum_cons]
    rw [ih, add_assoc, wrapInt_add_left]

/-- The sum `Authorize` computes is the arithmetic sum of the ids, as a 64-bit
word. -/
theorem sumRoleIds_eq (l : List Int) : sumRoleIds l = wrapInt l.sum := by
  have h := foldl_wrapInt l 0
  rw [wrapInt_zero, zero_add] at h
  exact h

theorem bitsOverlap_nil_left (e : List Nat) : bitsOverlap [] e = false := by
  simp [bitsOverlap]

theorem BinaryConverter_zero_width (v : Int) : BinaryConverter v 0 = [] := by
  simp [BinaryConverter]

/-- No digit of the number 0 is set, so nothing overlaps with it. -/
theorem bitsOverlap_zero_right (us : List Nat) (n : Nat) :
    bitsOverlap us (BinaryConverter 0 n) = false := by
  simp only [bitsOverlap, List.any_eq_false]
  intro p hp
  have h2 : p.2 ∈ BinaryConverter 0 n := (List.of_mem_zip hp).2
  simp only [BinaryConverter, List.mem_map] at h2
  obtain ⟨i, _, hi⟩ := h2
  have : p.2 = 0 := by rw [← hi]; simp
  simp [this]

/-- The two sign-up handlers leave the world behind the use case in the same
state, whatever the use case does. -/
theorem SignUpAdmin_state_eq {σ : Type} (E : UsersEnv) (h : UsersUsecase σ) (c : Ctx) (s : σ) :
    (SignUpAdmin E h c s).2 = (SignUpCustomer E h c s).2 := by
  unfold SignUpAdmin SignUpCustomer
  cases E.parseRegister c.body with
  | error err => rfl
  | ok req =>
    dsimp only
    cases E.IsEmail req with
    | false => rfl
    | true =>
      rcases h.InsertCustomer req s with ⟨r, s'⟩
      cases r <;> rfl

/-- With an integer role id in the context and a roles table read, `Authorize`
calls the next handler exactly when the two digit lists overlap. -/
theorem Authorize_isNext (u : MiddlewaresUsecase) (roles : List Role) (c : Ctx) (userRoleId : Int)
    (expectRoleId : List Int) (hc : c.locals "userRoleId" = .int userRoleId)
    (hr : u.FindRole = .ok roles) :
    (Authorize u expectRoleId c).isNext
      = bitsOverlap (BinaryConverter userRoleId roles.length)
          (BinaryConverter (sumRoleIds expectRoleId) roles.length) := by
  simp only [Authorize, hc, hr]
  cases bitsOverlap (BinaryConverter userRoleId roles.length)
      (BinaryConverter (sumRoleIds expectRoleId) roles.length) <;> rfl

theorem setLocal_get (c : Ctx) (key : String) (v : LocalVal) :
    (c.setLocal key v).locals key = v := by
  simp [Ctx.setLocal]

theorem JwtAuth_of_parse_error (ParseToken : String → Except String Claims)
    (u : MiddlewaresUsecase) (c : Ctx) (err : String)
    (hp : ParseToken (trimPrefix (c.header "Authorization") "Bearer ") = .error err) :
    JwtAuth ParseToken u c = .respond c (.error ErrUnauthorized jwtAuthErr err) := by
  simp [JwtAuth, hp]

theorem JwtAuth_of_no_session (ParseToken : String → Except String Claims)
    (u : MiddlewaresUsecase) (c : Ctx) (claims : Claims)
    (hp : ParseToken (trimPrefix (c.header "Authorization") "Bearer ") = .ok claims)
    (hf : u.FindAccessToken claims.Id (trimPrefix (c.header "Authorization") "Bearer ") = false) :
    JwtAuth ParseToken u c
      = .respond c (.error ErrUnauthorized jwtAuthErr "no permission to access") := by
  simp [JwtAuth, hp, hf]

theorem JwtAuth_of_session (ParseToken : String → Except String Claims)
    (u : MiddlewaresUsecase) (c : Ctx) (claims : Claims)
    (hp : ParseToken (trimPrefix (c.header "Authorization") "Bearer ") = .ok claims)
    (hf : u.FindAccessToken claims.Id (trimPrefix (c.header "Authorization") "Bearer ") = true) :
    JwtAuth ParseToken u c
      = .next ((c.setLocal "userId" (.str claims.Id)).setLocal "userRoleId" (.int claims.RoleId)) := by
  simp [JwtAuth, hp, hf]

theorem testBit_two_pow_add_of_lt {e k S : Nat} (hek : e < k) (hS : S.testBit e = false) :
    (2 ^ e + S).testBit k = S.testBit k := by
  have hr : S % 2 ^ (e + 1) < 2 ^ e := by
    rw [Nat.mod_pow_succ]
    rw [Nat.testBit_to_div_mod] at hS
    have h0 : S / 2 ^ e % 2 = 0 := by
      have := Nat.mod_two_eq_zero_or_one (S / 2 ^ e)
      simp at hS
      omega
    rw [h0]
    have := Nat.mod_lt S (Nat.two_pow_pos e)
    simpa using this
  have hdiv : (2 ^ e + S) / 2 ^ (e + 1) = S / 2 ^ (e + 1) := by
    have hpos : 0 < 2 ^ (e + 1) := Nat.two_pow_pos _
    conv_lhs => rw [← Nat.mod_add_div S (2 ^ (e + 1)), ← add_assoc]
    rw [Nat.add_mul_div_left _ _ hpos]
    have : (2 ^ e + S % 2 ^ (e + 1)) / 2 ^ (e + 1) = 0 := by
      apply Nat.div_eq_of_lt
      rw [pow_succ] at hr ⊢
      omega
    rw [this, zero_add]
  obtain ⟨d, rfl⟩ : ∃ d, k = (e + 1) + d := ⟨k - (e + 1), by omega⟩
  rw [Nat.testBit_to_div_mod, Nat.testBit_to_div_mod, pow_add, ← Nat.div_div_eq_div_mul,
    ← Nat.div_div_eq_div_mul, hdiv]

theorem testBit_sum_two_pows (L : List Nat) (hd : L.Nodup) (hp : ∀ x ∈ L, ∃ e, x = 2 ^ e)
    (k : Nat) : L.sum.testBit k = true ↔ 2 ^ k ∈ L := by
  induction L generalizing k with
  | nil => simp
  | cons x L ih =>
    obtain ⟨e, rfl⟩ := hp x (List.mem_cons_self _ _)
    have hd' := (List.nodup_cons.mp hd)
    have ih' := ih hd'.2 (fun y hy => hp y (List.mem_cons_of_mem _ hy))
    have he : L.sum.testBit e = false := by
      by_contra hne
      have : L.sum.testBit e = true := by simpa using hne
      exact hd'.1 ((ih' e).mp this)
    rw [List.sum_cons, List.mem_cons]
    rcases Nat.lt_trichotomy k e with hlt | heq | hgt
    · rw [Nat.testBit_two_pow_add_gt hlt, ih' k]
      have : (2:Nat) ^ k ≠ 2 ^ e := fun h => by
        have := Nat.pow_right_injective (le_refl 2) h
        omega
      simp [this]
    · subst heq
      rw [Nat.testBit_two_pow_add_eq, he]
      simp
    · rw [testBit_two_pow_add_of_lt hgt he, ih' k]
      have : (2:Nat) ^ k ≠ 2 ^ e := fun h => by
        have := Nat.pow_right_injective (le_refl 2) h
        omega
      simp [this]

theorem sum_two_pows_lt (L : List Nat) (n : Nat) (hn : 1 ≤ n) (hd : L.Nodup)
    (hp : ∀ x ∈ L, x ≤ n ∧ ∃ e, x = 2 ^ e) : L.sum < 2 * n := by
  have h1 : L.sum < 2 ^ (Nat.log 2 n + 1) := by
    apply Nat.lt_pow_two_of_testBit
    intro i hi
    by_contra hne
    have hT : L.sum.testBit i = true := by simpa using hne
    have hm := (testBit_sum_two_pows L hd (fun x hx => (hp x hx).2) i).mp hT
    have hle := (hp _ hm).1
    have : n < 2 ^ (Nat.log 2 n + 1) := Nat.lt_pow_succ_log_self (by norm_num) n
    have : 2 ^ (Nat.log 2 n + 1) ≤ 2 ^ i := Nat.pow_le_pow_right (by norm_num) hi
    omega
  have h2 : 2 ^ Nat.log 2 n ≤ n := Nat.pow_log_le_self 2 (by omega)
  rw [pow_succ] at h1
  omega

theorem land_mod_two_eq_one (x y : Nat) :
    (x % 2 &&& y % 2 == 1) = true ↔ x % 2 = 1 ∧ y % 2 = 1 := by
  rcases Nat.mod_two_eq_zero_or_one x with hx | hx <;>
    rcases Nat.mod_two_eq_zero_or_one y with hy | hy <;> simp [hx, hy]

/-- The digit lists of two numbers overlap exactly when the two numbers have a
common binary digit 1 of weight below `2 ^ n`. -/
theorem bitsOverlap_BinaryConverter (a b : Int) (n : Nat) :
    bitsOverlap (BinaryConverter a n) (BinaryConverter b n) = true ↔
      ∃ j, j < n ∧ a.toNat.testBit j = true ∧ b.toNat.testBit j = true := by
  unfold bitsOverlap BinaryConverter
  rw [List.zip_map']
  simp only [List.any_eq_true, List.mem_map, List.mem_range]
  constructor
  · rintro ⟨p, ⟨i, hi, rfl⟩, h⟩
    refine ⟨n - 1 - i, by omega, ?_⟩
    rw [land_mod_two_eq_one] at h
    simp [Nat.testBit_to_div_mod, h.1, h.2]
  · rintro ⟨j, hj, ha, hb⟩
    refine ⟨_, ⟨n - 1 - j, by omega, rfl⟩, ?_⟩
    have hjj : n - 1 - (n - 1 - j) = j := by omega
    rw [land_mod_two_eq_one, hjj]
    rw [Nat.testBit_to_div_mod] at ha hb
    exact ⟨of_decide_eq_true ha, of_decide_eq_true hb⟩

theorem sum_map_toNat (l : List Int) (h : ∀ r ∈ l, 0 ≤ r) :
    ((l.map Int.toNat).sum : Int) = l.sum := by
  induction l with
  | nil => simp
  | cons r l ih =>
    have h0 := h r (List.mem_cons_self _ _)
    have ih' := ih (fun x hx => h x (List.mem_cons_of_mem _ hx))
    simp only [List.map_cons, List.sum_cons, Nat.cast_add, ih']
    rw [Int.toNat_of_nonneg h0]

theorem nodup_map_toNat (l : List Int) (h : ∀ r ∈ l, 0 ≤ r) (hd : l.Nodup) :
    (l.map Int.toNat).Nodup :=
  List.Nodup.map_on (fun x hx y hy hxy => by
    have := h x hx
    have := h y hy
    omega) hd

/-! ## Claims -/

/-- C10: `Authorize` sees the required role ids only through their arithmetic
sum: for a fixed caller context and use case, two lists of required role ids
with the same sum give the same outcome, and the empty list lets no caller
through. -/
theorem Authorize_sees_only_sum (u : MiddlewaresUsecase) (c : Ctx) (l₁ l₂ : List Int)
    (h : l₁.sum = l₂.sum) :
    Authorize u l₁ c = Authorize u l₂ c ∧ (Authorize u [] c).isNext = false := by
  constructor
  · unfold Authorize
    rw [sumRoleIds_eq, sumRoleIds_eq, h]
  · unfold Authorize
    cases c.locals "userRoleId" with
    | nil => rfl
    | str s => rfl
    | int r =>
      cases u.FindRole with
      | error err => rfl
      | ok roles =>
        have hs : sumRoleIds [] = 0 := rfl
        simp only [hs, bitsOverlap_zero_right]
        rfl

/-- C10 at the lists [1, 2] and [3] with 3 roles and a caller with role id 1. -/
theorem Authorize_sees_only_sum_witness :
    ([1, 2] : List Int).sum = ([3] : List Int).sum ∧
    (Authorize (usecaseWithRoles 3) [1, 2] (ctxWithRole 1)
        = Authorize (usecaseWithRoles 3) [3] (ctxWithRole 1) ∧
      (Authorize (usecaseWithRoles 3) [] (ctxWithRole 1)).isNext = false) :=
  ⟨by decide, Authorize_sees_only_sum (usecaseWithRoles 3) (ctxWithRole 1) [1, 2] [3] (by decide)⟩

/-- C2, as the spec states it, fails on its third case: with 3 roles, a caller
with role id 1 is denied when the required ids are 1 and 3 (their sum 4 is
`100`, the caller is `001`). -/
theorem Authorize_tie_break_counterexample :
    (Authorize (usecaseWithRoles 3) [1, 3] (ctxWithRole 1)).isNext = false ∧
    (Authorize (usecaseWithRoles 3) [1, 3] (ctxWithRole 1)).response
      = some (.error 401 "middleware-004" "no permission to access") := by
  decide

/-- C2, amended: with 3 roles, `Authorize` lets a caller with role id 2 through
when the required ids are 1 and 2, denies a caller with role id 1 when the
required id is 2 alone, and denies a caller with role id 1 when the required
ids are 1 and 3. -/
theorem Authorize_tie_break (u : MiddlewaresUsecase) (roles : List Role) (c : Ctx)
    (hr : u.FindRole = .ok roles) (hn : roles.length = 3) :
    (Authorize u [1, 2] (c.setLocal "userRoleId" (.int 2))).isNext = true ∧
    (Authorize u [2] (c.setLocal "userRoleId" (.int 1))).isNext = false ∧
    (Authorize u [1, 3] (c.setLocal "userRoleId" (.int 1))).isNext = false := by
  rw [Authorize_isNext u roles _ 2 _ (setLocal_get c _ _) hr,
    Authorize_isNext u roles _ 1 _ (setLocal_get c _ _) hr,
    Authorize_isNext u roles _ 1 _ (setLocal_get c _ _) hr, hn]
  decide

/-- C2, amended, at a roles table of 3 rows. -/
theorem Authorize_tie_break_witness :
    (usecaseWithRoles 3).FindRole = .ok (rolesOfCount 3) ∧ (rolesOfCount 3).length = 3 ∧
    ((Authorize (usecaseWithRoles 3) [1, 2] (emptyCtx.setLocal "userRoleId" (.int 2))).isNext = true ∧
     (Authorize (usecaseWithRoles 3) [2] (emptyCtx.setLocal "userRoleId" (.int 1))).isNext = false ∧
     (Authorize (usecaseWithRoles 3) [1, 3] (emptyCtx.setLocal "userRoleId" (.int 1))).isNext = false) :=
  ⟨rfl, by decide, Authorize_tie_break (usecaseWithRoles 3) (rolesOfCount 3) emptyCtx rfl (by decide)⟩

/-- C3, as the spec states it, fails: with 2 roles a caller with role id 3 is
let through when the required id is 1, and a caller with role id 1 is let
through when the required id is 3; an id above the role count is not
rejected. -/
theorem Authorize_fail_closed_counterexample :
    (Authorize (usecaseWithRoles 2) [1] (ctxWithRole 3)).isNext = true ∧
    (Authorize (usecaseWithRoles 2) [3] (ctxWithRole 1)).isNext = true := by
  decide

/-- C3, amended: when the total role count is 0, `Authorize` denies every
caller role id against every list of required role ids: it answers with the
'no permission to access' error and does not call the next handler. -/
theorem Authorize_denies_without_roles (u : MiddlewaresUsecase) (c : Ctx) (userRoleId : Int)
    (expectRoleId : List Int) (hc : c.locals "userRoleId" = .int userRoleId)
    (hr : u.FindRole = .ok []) :
    Authorize u expectRoleId c
        = .respond c (.error ErrUnauthorized authorizeErr "no permission to access") ∧
    (Authorize u expectRoleId c).isNext = false := by
  have h : Authorize u expectRoleId c
      = .respond c (.error ErrUnauthorized authorizeErr "no permission to access") := by
    simp [Authorize, hc, hr, BinaryConverter_zero_width, bitsOverlap_nil_left]
  rw [h]
  exact ⟨rfl, rfl⟩

/-- C3, amended, at an empty roles table and a caller with role id 1. -/
theorem Authorize_denies_without_roles_witness :
    (ctxWithRole 1).locals "userRoleId" = .int 1 ∧ (usecaseWithRoles 0).FindRole = .ok [] ∧
    (Authorize (usecaseWithRoles 0) [1] (ctxWithRole 1)
        = .respond (ctxWithRole 1) (.error ErrUnauthorized authorizeErr "no permission to access") ∧
      (Authorize (usecaseWithRoles 0) [1] (ctxWithRole 1)).isNext = false) :=
  ⟨by decide, rfl, Authorize_denies_without_roles (usecaseWithRoles 0) (ctxWithRole 1) 1 [1]
    (by decide) rfl⟩

/-- C4: `ParamsCheck` calls the next handler if and only if the path parameter
`user_id` equals the subject id stored in the request context under "userId";
on every mismatch it answers with the 'params mismatch' error and does not call
the next handler, whatever else (the role id included) the context holds. -/
theorem ParamsCheck_compares_subject (c : Ctx) (subject : String)
    (h : c.locals "userId" = .str subject) :
    ((ParamsCheck c).isNext = true ↔ c.params "user_id" = subject) ∧
    (ParamsCheck c).response
      = (if c.params "user_id" = subject then none
         else some (.error ErrUnauthorized paramsCheckErr "params mismatch")) := by
  unfold ParamsCheck
  by_cases hp : c.params "user_id" = subject
  · simp [h, hp, Gate.isNext, Gate.response]
  · simp [h, hp, Gate.isNext, Gate.response]

/-- C4 at the subject "u1" asking for the path of "u2". -/
theorem ParamsCheck_compares_subject_witness :
    ({ emptyCtx with params := fun _ => "u2", locals := fun _ => .str "u1" } : Ctx).locals "userId"
      = .str "u1" ∧
    (((ParamsCheck { emptyCtx with params := fun _ => "u2", locals := fun _ => .str "u1" }).isNext
        = true ↔
      ({ emptyCtx with params := fun _ => "u2", locals := fun _ => .str "u1" } : Ctx).params "user_id"
        = "u1") ∧
     (ParamsCheck { emptyCtx with params := fun _ => "u2", locals := fun _ => .str "u1" }).response
      = (if ({ emptyCtx with params := fun _ => "u2", locals := fun _ => .str "u1" } : Ctx).params
            "user_id" = "u1" then none
         else some (.error ErrUnauthorized paramsCheckErr "params mismatch"))) :=
  ⟨rfl, ParamsCheck_compares_subject _ "u1" rfl⟩

/-- C5: `JwtAuth` calls the next handler if and only if `ParseToken` succeeds
on the Authorization header with a leading "Bearer " removed and
`FindAccessToken(claims.Id, token)` reports a match; exactly then the context
holds the claims' subject id under "userId" and role id under "userRoleId"
(and is otherwise as before); in every other case it answers with an
unauthorized error and leaves the context as it was. -/
theorem JwtAuth_gates_on_token_and_session (ParseToken : String → Except String Claims)
    (u : MiddlewaresUsecase) (c : Ctx) :
    ((JwtAuth ParseToken u c).isNext = true ↔
      ∃ claims, ParseToken (trimPrefix (c.header "Authorization") "Bearer ") = .ok claims ∧
        u.FindAccessToken claims.Id (trimPrefix (c.header "Authorization") "Bearer ") = true) ∧
    ((JwtAuth ParseToken u c).isNext = true →
      ∃ claims, ParseToken (trimPrefix (c.header "Authorization") "Bearer ") = .ok claims ∧
        (JwtAuth ParseToken u c).ctx.locals "userId" = .str claims.Id ∧
        (JwtAuth ParseToken u c).ctx.locals "userRoleId" = .int claims.RoleId ∧
        (∀ k, k ≠ "userId" → k ≠ "userRoleId" →
          (JwtAuth ParseToken u c).ctx.locals k = c.locals k)) ∧
    ((JwtAuth ParseToken u c).isNext = false →
      (∃ msg, (JwtAuth ParseToken u c).response = some (.error ErrUnauthorized jwtAuthErr msg)) ∧
        (JwtAuth ParseToken u c).ctx = c) := by
  cases hp : ParseToken (trimPrefix (c.header "Authorization") "Bearer ") with
  | error err =>
    rw [JwtAuth_of_parse_error ParseToken u c err hp]
    simp [Gate.isNext, Gate.response, Gate.ctx]
  | ok claims =>
    cases hf : u.FindAccessToken claims.Id (trimPrefix (c.header "Authorization") "Bearer ") with
    | false =>
      rw [JwtAuth_of_no_session ParseToken u c claims hp hf]
      simp [Gate.isNext, Gate.response, Gate.ctx, hf]
    | true =>
      rw [JwtAuth_of_session ParseToken u c claims hp hf]
      refine ⟨⟨fun _ => ⟨claims, rfl, hf⟩, fun _ => rfl⟩, fun _ => ⟨claims, rfl, ?_, ?_, ?_⟩, ?_⟩
      · simp [Gate.ctx, Ctx.setLocal]
      · simp [Gate.ctx, Ctx.setLocal]
      · intro k h1 h2
        simp [Gate.ctx, Ctx.setLocal, h1, h2]
      · intro h
        simp [Gate.isNext] at h

/-- C5 at a concrete request: a live session lets the request through with the
subject and role stored; the same token without a session is refused and the
context stays empty. -/
theorem JwtAuth_gates_on_token_and_session_witness :
    (JwtAuth parseGood (middlewaresUsecaseOf sessionWorld)
        { emptyCtx with header := fun _ => "Bearer good" }).isNext = true ∧
    (JwtAuth parseGood (middlewaresUsecaseOf sessionWorld)
        { emptyCtx with header := fun _ => "Bearer good" }).ctx.locals "userId" = .str "u1" ∧
    (JwtAuth parseGood (middlewaresUsecaseOf emptyWorld)
        { emptyCtx with header := fun _ => "Bearer good" }).response
      = some (.error 401 "middleware-002" "no permission to access") ∧
    (JwtAuth parseGood (middlewaresUsecaseOf emptyWorld)
        { emptyCtx with header := fun _ => "Bearer good" }).ctx.locals "userId" = .nil := by
  have h := JwtAuth_gates_on_token_and_session parseGood (middlewaresUsecaseOf sessionWorld)
    { emptyCtx with header := fun _ => "Bearer good" }
  exact ⟨h.1.2 ⟨{ Id := "u1", RoleId := 1 }, rfl, by decide⟩, by decide, by decide, by decide⟩

/-- C6, on the code: `SignUpAdmin` calls the same insertion as
`SignUpCustomer`, so both leave the store in the same state for every use
case; with the use case of the spec, the admin registration of the scenario
request writes a user with role id 1 and none with role id 2. -/
theorem SignUpAdmin_writes_customer_role (hash : String → String) :
    (SignUpAdmin (envOf scenarioReq "") (usersUsecaseOf hash) emptyCtx emptyWorld).2
      = (SignUpCustomer (envOf scenarioReq "") (usersUsecaseOf hash) emptyCtx emptyWorld).2 ∧
    (SignUpAdmin (envOf scenarioReq "") (usersUsecaseOf hash) emptyCtx emptyWorld).2.users
      = [{ id := "u", email := "a@x.com", password := hash "p", username := "a", role_id := 1 }] ∧
    ((usersUsecaseOf hash).InsertAdmin scenarioReq emptyWorld).2.users
      = [{ id := "u", email := "a@x.com", password := hash "p", username := "a", role_id := 2 }] := by
  refine ⟨SignUpAdmin_state_eq _ _ _ _, ?_, ?_⟩
  · rfl
  · rfl

/-- C7: for a registration request whose body parses, both sign-up handlers
check the email before inserting: when the email does not satisfy `IsEmail`
they answer with the bad-request error 'email pattern is invalid' and leave the
world behind the use case as it was, and a use case that counts its insertions
counts one insertion when the email satisfies `IsEmail` and none otherwise. -/
theorem SignUp_validates_email_first {σ : Type} (E : UsersEnv) (h : UsersUsecase σ) (c : Ctx)
    (s : σ) (n : Nat) (req : UserRegisterReq) (hp : E.parseRegister c.body = .ok req) :
    (E.IsEmail req = false →
      SignUpCustomer E h c s
        = (.error ErrBadRequest signUpCustomerErr "email pattern is invalid", s) ∧
      SignUpAdmin E h c s
        = (.error ErrBadRequest signUpAdminErr "email pattern is invalid", s)) ∧
    (SignUpCustomer E countingUsecase c n).2 = (if E.IsEmail req then n + 1 else n) ∧
    (SignUpAdmin E countingUsecase c n).2 = (if E.IsEmail req then n + 1 else n) := by
  unfold SignUpCustomer SignUpAdmin
  rw [hp]
  cases he : E.IsEmail req with
  | false => simp [he]
  | true => simp [he, countingUsecase]

/-- C7 at a request whose email has no `@`: both handlers refuse it and no
insertion is counted. -/
theorem SignUp_validates_email_first_witness :
    (envOf { scenarioReq with Email := "a.x.com" } "").parseRegister emptyCtx.body
      = .ok { scenarioReq with Email := "a.x.com" } ∧
    SignUpCustomer (envOf { scenarioReq with Email := "a.x.com" } "") (usersUsecaseOf id) emptyCtx
        emptyWorld
      = (.error ErrBadRequest signUpCustomerErr "email pattern is invalid", emptyWorld) ∧
    SignUpAdmin (envOf { scenarioReq with Email := "a.x.com" } "") (usersUsecaseOf id) emptyCtx
        emptyWorld
      = (.error ErrBadRequest signUpAdminErr "email pattern is invalid", emptyWorld) ∧
    (SignUpCustomer (envOf { scenarioReq with Email := "a.x.com" } "") countingUsecase emptyCtx 0).2
      = 0 :=
  have h := SignUp_validates_email_first (envOf { scenarioReq with Email := "a.x.com" } "")
    (usersUsecaseOf id) emptyCtx emptyWorld 0 { scenarioReq with Email := "a.x.com" } rfl
  ⟨rfl, (h.1 (by decide)).1, (h.1 (by decide)).2, h.2.1.trans (by decide)⟩

/-- C8: for a sign-out request whose body parses, `SignOut` answers with
success if and only if `DeleteOauth` on the given id returns no error; whenever
the delete returns an error the handler answers with a bad request carrying
that error. -/
theorem SignOut_surfaces_delete_error {σ : Type} (E : UsersEnv) (h : UsersUsecase σ) (c : Ctx)
    (s : σ) (oauthId : String) (hp : E.parseRemove c.body = .ok oauthId) :
    ((SignOut E h c s).1 = .success StatusOK () ↔ (h.DeleteOauth oauthId s).1 = none) ∧
    ((∃ code data, (SignOut E h c s).1 = .success code data) → (h.DeleteOauth oauthId s).1 = none) ∧
    (∀ err, (h.DeleteOauth oauthId s).1 = some err →
      (SignOut E h c s).1 = .error ErrBadRequest signOutErr err) := by
  unfold SignOut
  rw [hp]
  rcases hd : h.DeleteOauth oauthId s with ⟨r, s'⟩
  cases r with
  | none => simp [hd]
  | some e => simp [hd]

/-- C8 at a sign-out for the session id "s2", which the store does not hold. -/
theorem SignOut_surfaces_delete_error_witness :
    (envOf scenarioReq "s2").parseRemove emptyCtx.body = .ok "s2" ∧
    (((SignOut (envOf scenarioReq "s2") (usersUsecaseOf id) emptyCtx sessionWorld).1
        = .success StatusOK () ↔ ((usersUsecaseOf id).DeleteOauth "s2" sessionWorld).1 = none) ∧
     ((∃ code data, (SignOut (envOf scenarioReq "s2") (usersUsecaseOf id) emptyCtx sessionWorld).1
        = .success code data) → ((usersUsecaseOf id).DeleteOauth "s2" sessionWorld).1 = none) ∧
     (∀ err, ((usersUsecaseOf id).DeleteOauth "s2" sessionWorld).1 = some err →
       (SignOut (envOf scenarioReq "s2") (usersUsecaseOf id) emptyCtx sessionWorld).1
        = .error ErrBadRequest signOutErr err)) :=
  ⟨rfl, SignOut_surfaces_delete_error (envOf scenarioReq "s2") (usersUsecaseOf id) emptyCtx
    sessionWorld "s2" rfl⟩

/-- C1, as the spec states it, fails in both directions: with 3 roles a caller
with role id 3 is let through when the only required id is 1, and a caller with
role id 1 is denied when the required ids are 1 and 3. -/
theorem Authorize_membership_counterexample :
    ((Authorize (usecaseWithRoles 3) [1] (ctxWithRole 3)).isNext = true ∧
      decide ((3 : Int) ∈ ([1] : List Int)) = false) ∧
    ((Authorize (usecaseWithRoles 3) [1, 3] (ctxWithRole 1)).isNext = false ∧
      decide ((1 : Int) ∈ ([1, 3] : List Int)) = true) := by
  decide

/-- C1, amended: when the role ids are one-bit masks, `Authorize` is a
set-membership test: for fewer than `2 ^ 62` roles, every caller role id and
every list of distinct required role ids, all within 1..n and all powers of
two, `Authorize` calls the next handler if and only if the caller's role id is
one of the required role ids. -/
theorem Authorize_membership_of_one_bit_ids (u : MiddlewaresUsecase) (roles : List Role)
    (c : Ctx) (userRoleId : Int) (expectRoleId : List Int)
    (hc : c.locals "userRoleId" = .int userRoleId) (hr : u.FindRole = .ok roles)
    (hlen : roles.length < 2 ^ 62)
    (hu : 1 ≤ userRoleId ∧ userRoleId ≤ roles.length ∧ ∃ k : Nat, userRoleId = 2 ^ k)
    (hd : expectRoleId.Nodup)
    (he : ∀ r ∈ expectRoleId, 1 ≤ r ∧ r ≤ roles.length ∧ ∃ k : Nat, r = 2 ^ k) :
    (Authorize u expectRoleId c).isNext = true ↔ userRoleId ∈ expectRoleId := by
  have hnn : ∀ r ∈ expectRoleId, 0 ≤ r := fun r hr => by
    have := (he r hr).1
    omega
  have hLd : (expectRoleId.map Int.toNat).Nodup := nodup_map_toNat _ hnn hd
  have hLp : ∀ x ∈ expectRoleId.map Int.toNat, x ≤ roles.length ∧ ∃ e, x = 2 ^ e := by
    intro x hx
    obtain ⟨r, hr, rfl⟩ := List.mem_map.mp hx
    obtain ⟨h1, h2, k, hk⟩ := he r hr
    refine ⟨by omega, k, ?_⟩
    rw [hk]
    exact_mod_cast Int.toNat_natCast (2 ^ k)
  have hn1 : 1 ≤ roles.length := by omega
  have hsumlt := sum_two_pows_lt _ _ hn1 hLd hLp
  have hsum : sumRoleIds expectRoleId = ((expectRoleId.map Int.toNat).sum : Int) := by
    rw [sumRoleIds_eq, ← sum_map_toNat _ hnn]
    apply wrapInt_of_bounds <;> omega
  rw [Authorize_isNext u roles c userRoleId expectRoleId hc hr, bitsOverlap_BinaryConverter, hsum]
  obtain ⟨hu1, hu2, k, hk⟩ := hu
  subst hk
  have hkn : k < roles.length := by
    have h2 : (2 : Nat) ^ k ≤ roles.length := by exact_mod_cast hu2
    have h3 := Nat.lt_two_pow roles.length
    by_contra hge
    have h4 := Nat.pow_le_pow_right (by norm_num : 0 < 2) (Nat.le_of_not_lt hge)
    omega
  have hcast : ((2 : Int) ^ k).toNat = 2 ^ k := by
    exact_mod_cast Int.toNat_natCast (2 ^ k)
  rw [hcast]
  simp only [Int.toNat_ofNat]
  constructor
  · rintro ⟨j, _, h1, h2⟩
    rw [Nat.testBit_two_pow] at h1
    have hkj : k = j := of_decide_eq_true h1
    subst hkj
    have hm := (testBit_sum_two_pows _ hLd (fun x hx => (hLp x hx).2) k).mp h2
    obtain ⟨r, hr, hrk⟩ := List.mem_map.mp hm
    have hr0 := hnn r hr
    have : r = (2 : Int) ^ k := by
      rw [← Int.toNat_of_nonneg hr0, hrk]
      push_cast
      rfl
    rw [← this]
    exact hr
  · intro hmem
    refine ⟨k, hkn, by simp [Nat.testBit_two_pow], ?_⟩
    apply (testBit_sum_two_pows _ hLd (fun x hx => (hLp x hx).2) k).mpr
    exact List.mem_map.mpr ⟨(2 : Int) ^ k, hmem, hcast⟩

/-- C1, amended, at 2 roles, a caller with role id 2 and the required ids 1 and 2. -/
theorem Authorize_membership_of_one_bit_ids_witness :
    (ctxWithRole 2).locals "userRoleId" = .int 2 ∧
    (usecaseWithRoles 2).FindRole = .ok (rolesOfCount 2) ∧
    (rolesOfCount 2).length < 2 ^ 62 ∧
    ([1, 2] : List Int).Nodup ∧
    ((Authorize (usecaseWithRoles 2) [1, 2] (ctxWithRole 2)).isNext = true ↔
      (2 : Int) ∈ ([1, 2] : List Int)) :=
  ⟨by decide, rfl, by decide, by decide,
    Authorize_membership_of_one_bit_ids (usecaseWithRoles 2) (rolesOfCount 2) (ctxWithRole 2) 2
      [1, 2] (by decide) rfl (by decide) ⟨by decide, by decide, 1, by decide⟩ (by decide)
      (fun r hr => by
        simp only [List.mem_cons, List.mem_singleton, List.not_mem_nil, or_false] at hr
        rcases hr with rfl | rfl
        · exact ⟨by decide, by decide, 0, by decide⟩
        · exact ⟨by decide, by decide, 1, by decide⟩)⟩

/-- C9, as the spec states it, fails: two storage failures with different
texts give `GetUserProfile` two different server-error responses, each carrying
the text of its error. -/
theorem server_error_message_counterexample :
    (GetUserProfile (failingUsecase "pq: connection refused") emptyCtx ()).1
      = .error 500 "users-007" "pq: connection refused" ∧
    (GetUserProfile (failingUsecase "pq: too many clients") emptyCtx ()).1
      = .error 500 "users-007" "pq: too many clients" ∧
    decide ((GetUserProfile (failingUsecase "pq: connection refused") emptyCtx ()).1
      = (GetUserProfile (failingUsecase "pq: too many clients") emptyCtx ()).1) = false := by
  decide

/-- C9, amended: whenever a handler answers with a server error because a
storage or codec call failed (the insert in `SignUpCustomer` and `SignUpAdmin`,
the profile lookup in `GetUserProfile`, the token construction in
`GenerateAdminToken`, the role lookup in `Authorize`), the response has status
500 and the handler's own error code, and its message is the text of the
underlying error. -/
theorem server_error_carries_error_text (err : String) :
    (∀ (σ : Type) (E : UsersEnv) (h : UsersUsecase σ) (c : Ctx) (s s' : σ) (req : UserRegisterReq),
      E.parseRegister c.body = .ok req → E.IsEmail req = true →
      h.InsertCustomer req s = (.error err, s') →
      (SignUpCustomer E h c s).1 = .error ErrInternalServerError signUpCustomerErr err ∧
      (SignUpAdmin E h c s).1 = .error ErrInternalServerError signUpAdminErr err) ∧
    (∀ (σ : Type) (h : UsersUsecase σ) (c : Ctx) (s s' : σ),
      h.GetUserProfile (trimSpaces (c.params "user_id")) s = (.error err, s') →
      err ≠ "get user failed: sql: no rows in result set" →
      (GetUserProfile h c s).1 = .error ErrInternalServerError getUserProfileErr err) ∧
    (∀ (E : UsersEnv) (c : Ctx), E.NewAdminAuth = .error err →
      GenerateAdminToken E c = .error ErrInternalServerError generateAdminTokenErr err) ∧
    (∀ (u : MiddlewaresUsecase) (expectRoleId : List Int) (c : Ctx) (userRoleId : Int),
      c.locals "userRoleId" = .int userRoleId → u.FindRole = .error err →
      Authorize u expectRoleId c
        = .respond c (.error ErrInternalServerError authorizeErr err)) := by
  refine ⟨?_, ?_, ?_, ?_⟩
  · intro σ E h c s s' req hp he hi
    simp [SignUpCustomer, SignUpAdmin, hp, he, hi]
  · intro σ h c s s' hg hne
    simp [GetUserProfile, hg, hne]
  · intro E c hn
    simp [GenerateAdminToken, hn]
  · intro u l c r hc hf
    simp [Authorize, hc, hf]

/-- C9, amended, at concrete failures: the text of the failure is the message
of each server error. -/
theorem server_error_carries_error_text_witness :
    (SignUpCustomer (envOf scenarioReq "") (failingUsecase "pq: connection refused") emptyCtx ()).1
      = .error ErrInternalServerError signUpCustomerErr "pq: connection refused" ∧
    (GetUserProfile (failingUsecase "pq: connection refused") emptyCtx ()).1
      = .error ErrInternalServerError getUserProfileErr "pq: connection refused" ∧
    GenerateAdminToken (envAdminFails "pq: connection refused") emptyCtx
      = .error ErrInternalServerError generateAdminTokenErr "pq: connection refused" ∧
    Authorize { usecaseWithRoles 2 with FindRole := .error "pq: connection refused" } [1]
        (ctxWithRole 1)
      = .respond (ctxWithRole 1)
          (.error ErrInternalServerError authorizeErr "pq: connection refused") :=
  have h := server_error_carries_error_text "pq: connection refused"
  ⟨(h.1 Unit (envOf scenarioReq "") (failingUsecase "pq: connection refused") emptyCtx () ()
      scenarioReq rfl (by decide) rfl).1,
    h.2.1 Unit (failingUsecase "pq: connection refused") emptyCtx () () rfl (by decide),
    h.2.2.1 (envAdminFails "pq: connection refused") emptyCtx rfl,
    h.2.2.2 { usecaseWithRoles 2 with FindRole := .error "pq: connection refused" } [1]
      (ctxWithRole 1) 1 (by decide) rfl⟩

end HydroShop
